import Mathlib

/-!
Shallow embedding of the Daily-Standup-Slackbot core
(`app/services/standup_service.py` together with the data model of
`app/db/models.py`). Dates are modelled as natural day numbers,
timestamps as naturals, and the database as explicit lists of rows.
Each public operation of the standup state machine is embedded as a
pure function from a database value (plus the ambient parameters the
Python code reads from configuration and the clock) to a new database
value, a structured result, and the list of outbound chat messages.

Transactional reading: a public operation that returns an error before
reaching its `session.commit()` leaves the database unchanged (the
session's uncommitted changes are rolled back when the operation fails
to commit), matching the spec's one-transaction-per-operation contract.
-/

namespace Standup

/-- A user row (`app.db.models.User`): the columns the standup service reads. -/
structure User where
  id : Nat
  slack_user_id : String
  display_name : String
  timezone : Option String
  active : Bool
deriving Repr, DecidableEq

/-- A standup report row (`app.db.models.StandupReport`). -/
structure StandupReport where
  id : Nat
  user_id : Nat
  report_date : Nat
  feeling : Option String := none
  yesterday : Option String := none
  today : Option String := none
  blockers : Option String := none
  skipped : Bool := false
  completed_at : Option Nat := none
deriving Repr, DecidableEq

/-- A pending-standup state row (`app.db.models.StandupState`); at most one
per user. The question index is an `Int` because the Python column is a
plain integer and the service's guard does not exclude negative values. -/
structure StandupState where
  user_id : Nat
  pending_report_date : Nat
  current_question_index : Int
deriving Repr, DecidableEq

/-- The database: the three tables the standup service touches, plus the
id counter used when a new report row is created. -/
structure DB where
  users : List User
  reports : List StandupReport
  states : List StandupState
  next_report_id : Nat
deriving Repr, DecidableEq

/-- Outbound chat messages, tagged by which `build_*` formatter the service
invokes and the raw field values it passes (the payload itself is an opaque
formatter product; the service only chooses the kind and the arguments). -/
inductive Msg
  | startDM (slack_user_id : String)
  | missedDM (slack_user_id : String) (missed_date : Nat)
  | skipPost (display_name : String) (slack_user_id : String)
  | reportPost (display_name : String) (slack_user_id : String)
      (feeling yesterday today blockers : Option String)
deriving Repr, DecidableEq

/-- The slack user a direct message is addressed to (channel posts target
the configured channel, not a user). -/
def dmTarget : Msg → Option String
  | .startDM sid => some sid
  | .missedDM sid _ => some sid
  | .skipPost _ _ => none
  | .reportPost _ _ _ _ _ _ => none

/-- The fixed question sequence `QUESTIONS` of `standup_service.py`:
(field slot name, prompt text). -/
def QUESTIONS : List (String × String) :=
  [("feeling", "How are you feeling today?"),
   ("yesterday", "What did you do yesterday?"),
   ("today", "What are you doing today?"),
   ("blockers", "Any blockers or challenges?")]

/-- Python list indexing semantics: non-negative indices from the front,
negative indices from the back, `none` for an `IndexError`. -/
def pyIndex (xs : List α) (i : Int) : Option α :=
  if 0 ≤ i then xs[i.toNat]?
  else if (-i).toNat ≤ xs.length then xs[xs.length - (-i).toNat]?
  else none

/-- Python truthiness of `user.timezone or settings.scheduler_timezone`:
`None` and the empty string both fall back to the configured default. -/
def effective_tz (default_tz : String) (u : User) : String :=
  match u.timezone with
  | none => default_tz
  | some tz => if tz = "" then default_tz else tz

/-! Repository operations. Modelled from the spec: `app/db/repository.py`
is not under `src/`; §4.2 of the spec describes it as thin transactional
CRUD (`list_active`, `get_by_user_and_date`, `get_latest_by_user`,
`create`, partial `update`, `delete`, `create_or_replace_state`), which is
embedded here as plain list operations over the `DB` record. -/

/-- Modelled from the spec: `UserRepository.get_by_slack_id` — the user row
with the given (unique) slack user id. -/
def get_by_slack_id (db : DB) (sid : String) : Option User :=
  db.users.find? (fun u => u.slack_user_id == sid)

/-- Modelled from the spec: `UserRepository.get_by_id`. -/
def get_user_by_id (db : DB) (uid : Nat) : Option User :=
  db.users.find? (fun u => u.id == uid)

/-- Modelled from the spec: `UserRepository.list_active` — all active users. -/
def list_active (db : DB) : List User :=
  db.users.filter (fun u => u.active)

/-- Modelled from the spec: `StandupReportRepository.get_by_user_date` —
the unique report for (user, date), if any. -/
def get_by_user_date (db : DB) (uid : Nat) (d : Nat) : Option StandupReport :=
  db.reports.find? (fun r => r.user_id == uid && r.report_date == d)

/-- Modelled from the spec: `StandupReportRepository.get_by_id`. -/
def get_report_by_id (db : DB) (rid : Nat) : Option StandupReport :=
  db.reports.find? (fun r => r.id == rid)

/-- Modelled from the spec: `StandupReportRepository.get_latest_by_user` —
the user's most recent report by `report_date`, independent of completion
status. -/
def get_latest_by_user (db : DB) (uid : Nat) : Option StandupReport :=
  (db.reports.filter (fun r => r.user_id == uid)).foldl
    (fun acc r =>
      match acc with
      | none => some r
      | some b => if b.report_date < r.report_date then some r else some b)
    none

/-- Modelled from the spec: `StandupReportRepository.create` — insert a new
report row with a fresh id and otherwise default (empty) answer fields. -/
def report_create (db : DB) (uid : Nat) (d : Nat) (skipped : Bool) :
    DB × StandupReport :=
  let r : StandupReport :=
    { id := db.next_report_id, user_id := uid, report_date := d,
      skipped := skipped }
  ({ db with reports := db.reports ++ [r],
             next_report_id := db.next_report_id + 1 }, r)

/-- Write an answer text into the report field named by a question slot key
(the `setattr(report, question_key, answer_text)` of the service). -/
def set_answer (r : StandupReport) (key : String) (text : String) :
    StandupReport :=
  if key == "feeling" then { r with feeling := some text }
  else if key == "yesterday" then { r with yesterday := some text }
  else if key == "today" then { r with today := some text }
  else if key == "blockers" then { r with blockers := some text }
  else r

/-- Persist an answer-field write on the report row with the given id. -/
def report_set_field (db : DB) (rid : Nat) (key : String) (text : String) : DB :=
  { db with reports := db.reports.map (fun r =>
      if r.id == rid then set_answer r key text else r) }

/-- Modelled from the spec: `StandupReportRepository.update(report.id,
skipped=True)` — partial update of the skipped flag only. -/
def report_update_skipped (db : DB) (rid : Nat) : DB :=
  { db with reports := db.reports.map (fun r =>
      if r.id == rid then { r with skipped := true } else r) }

/-- Modelled from the spec: `StandupReportRepository.mark_completed` — set
`completed_at` to the current timestamp. -/
def mark_completed (db : DB) (rid : Nat) (now : Nat) : DB :=
  { db with reports := db.reports.map (fun r =>
      if r.id == rid then { r with completed_at := some now } else r) }

/-- Modelled from the spec: `StandupStateRepository.get_by_user` — the
user's unique pending state, if any. -/
def state_get_by_user (db : DB) (uid : Nat) : Option StandupState :=
  db.states.find? (fun s => s.user_id == uid)

/-- Modelled from the spec: `StandupStateRepository.create_or_update` —
create the user's pending state or overwrite it in place. -/
def state_create_or_update (db : DB) (uid : Nat) (d : Nat) (i : Int) : DB :=
  { db with states :=
      db.states.filter (fun s => s.user_id != uid) ++
        [{ user_id := uid, pending_report_date := d,
           current_question_index := i }] }

/-- Set the question index on the user's pending state (the in-place
`state.current_question_index += 1` mutation, committed). -/
def state_set_index (db : DB) (uid : Nat) (i : Int) : DB :=
  { db with states := db.states.map (fun s =>
      if s.user_id == uid then { s with current_question_index := i } else s) }

/-- Modelled from the spec: `StandupStateRepository.delete` — remove the
user's pending state row. -/
def state_delete (db : DB) (uid : Nat) : DB :=
  { db with states := db.states.filter (fun s => s.user_id != uid) }

/-- Well-formedness of a database value: the uniqueness constraints of
`models.py` (unique user ids and slack ids, at most one state per user,
unique report ids and unique (user, date) report pairs) together with
freshness of the report id counter. -/
def WF (db : DB) : Prop :=
  (db.users.map (fun u => u.id)).Nodup ∧
  (db.users.map (fun u => u.slack_user_id)).Nodup ∧
  (db.states.map (fun s => s.user_id)).Nodup ∧
  (db.reports.map (fun r => r.id)).Nodup ∧
  (db.reports.map (fun r => (r.user_id, r.report_date))).Nodup ∧
  (∀ r ∈ db.reports, r.id < db.next_report_id)

instance (db : DB) : Decidable (WF db) := by
  unfold WF; infer_instance

/-! The standup state machine (`app/services/standup_service.py`). -/

/-- Result of `handle_user_answer`: the returned dict, tagged by its
`action`, plus a `raised` case for an uncaught `IndexError` from
`QUESTIONS[question_index]` (the function has no exception handler, so
such an error propagates and the transaction is not committed). -/
inductive AnswerAction
  | errorMsg (message : String)
  | nextQuestion (question_index : Int)
  | completeReport (report_id : Nat)
  | raised
deriving Repr, DecidableEq

/-- Result of `handle_skip_today`, tagged by its `action`. -/
inductive SkipAction
  | errorMsg (message : String)
  | skipped
deriving Repr, DecidableEq

/-- Result of `post_report_to_channel`, tagged by its `action`. -/
inductive PostAction
  | errorMsg (message : String)
  | posted
deriving Repr, DecidableEq

/-- The per-user decision of `send_pending_standups` (lines 53-102): resolve
the user's date via `get_user_date` on the effective timezone, skip the user
when a report for that date already exists, otherwise choose the catch-up
branch (latest report strictly earlier than the user's date) or the
fresh-start branch, yielding the pending date and the opening DM to send.
`get_user_date` itself lives in `app/utils/timeutils.py`, which is not under
`src/`; it is abstracted as the parameter `todayOf`, mapping a timezone name
to the current date in that zone. -/
def dispatch_decision (todayOf : String → Nat) (default_tz : String)
    (db : DB) (u : User) : Option (Nat × Msg) :=
  let user_date := todayOf (effective_tz default_tz u)
  match get_by_user_date db u.id user_date with
  | some _ => none
  | none =>
    match get_latest_by_user db u.id with
    | some lr =>
      if lr.report_date < user_date then
        some (lr.report_date, Msg.missedDM u.slack_user_id lr.report_date)
      else
        some (user_date, Msg.startDM u.slack_user_id)
    | none => some (user_date, Msg.startDM u.slack_user_id)

/-- One iteration of the dispatch loop body for one user. The `fails`
oracle models the per-user `try`/`except`: when it returns `true` for a
user that would be sent a DM, the send (or the following state write)
raises, the exception is caught and logged, and that user's iteration has
no effect — mirroring that `_send_dm` precedes `create_or_update` and a
repository failure prevents the state write. -/
def dispatch_step (fails : User → Bool) (todayOf : String → Nat)
    (default_tz : String) (acc : DB × List Msg) (u : User) : DB × List Msg :=
  match dispatch_decision todayOf default_tz acc.1 u with
  | none => acc
  | some (d, m) =>
    if fails u then acc
    else (state_create_or_update acc.1 u.id d 0, acc.2 ++ [m])

/-- `send_pending_standups` (lines 36-107): one pass over all active users,
applying the per-user decision, with per-user failures caught. Returns the
committed database and the DMs successfully sent. -/
def send_pending_standups (fails : User → Bool) (todayOf : String → Nat)
    (default_tz : String) (db : DB) : DB × List Msg :=
  (list_active db).foldl (dispatch_step fails todayOf default_tz) (db, [])

/-- `handle_user_answer` (lines 110-174): store the user's answer into the
report for the pending date (created lazily), advance the question index,
and either complete the report or move to the next question. Error returns
happen before the commit, so they leave the database unchanged. -/
def handle_user_answer (now : Nat) (db : DB) (user_id : String)
    (answer_text : String) : DB × AnswerAction :=
  match get_by_slack_id db user_id with
  | none => (db, .errorMsg "User not found in database")
  | some user =>
    match state_get_by_user db user.id with
    | none => (db, .errorMsg "No pending standup. Start with /standup or wait for scheduled time.")
    | some state =>
      let created :=
        match get_by_user_date db user.id state.pending_report_date with
        | some r => (db, r)
        | none => report_create db user.id state.pending_report_date false
      let question_index := state.current_question_index
      if (QUESTIONS.length : Int) ≤ question_index then
        (db, .errorMsg "Invalid state")
      else
        match pyIndex QUESTIONS question_index with
        | none => (db, .raised)
        | some q =>
          let db2 := report_set_field created.1 created.2.id q.1 answer_text
          let new_index := question_index + 1
          if (QUESTIONS.length : Int) ≤ new_index then
            let db3 := mark_completed db2 created.2.id now
            let db4 := state_delete db3 user.id
            (db4, .completeReport created.2.id)
          else
            (state_set_index db2 user.id new_index, .nextQuestion new_index)

/-- `handle_skip_today` (lines 177-237): mark the report for the pending
date skipped (updating in place if it exists, else creating a skipped
report), delete the pending state, and optionally post a skip notification
to the channel (per the `skip_notification_to_channel` flag; its failure is
caught and does not affect the result). -/
def handle_skip_today (skip_notify : Bool) (db : DB) (slack_user_id : String) :
    DB × SkipAction × List Msg :=
  match get_by_slack_id db slack_user_id with
  | none => (db, .errorMsg "User not found", [])
  | some user =>
    match state_get_by_user db user.id with
    | none => (db, .errorMsg "No pending standup", [])
    | some state =>
      let db1 :=
        match get_by_user_date db user.id state.pending_report_date with
        | some r => report_update_skipped db r.id
        | none => (report_create db user.id state.pending_report_date true).1
      let db2 := state_delete db1 user.id
      if skip_notify then
        (db2, .skipped, [Msg.skipPost user.display_name slack_user_id])
      else
        (db2, .skipped, [])

/-- `post_report_to_channel` (lines 240-293): load the report and its user
and post the formatted summary to the configured channel; the database is
never modified. A send failure is caught and returned as a structured
error, modelled by the `send_fails` flag. -/
def post_report_to_channel (send_fails : Bool) (db : DB) (report_id : Nat) :
    DB × PostAction × List Msg :=
  match get_report_by_id db report_id with
  | none => (db, .errorMsg "Report not found", [])
  | some report =>
    match get_user_by_id db report.user_id with
    | none => (db, .errorMsg "User not found", [])
    | some user =>
      if send_fails then (db, .errorMsg "Failed to post", [])
      else
        (db, .posted,
          [Msg.reportPost user.display_name user.slack_user_id
            report.feeling report.yesterday report.today report.blockers])

/-- The answer field of a report addressed by a question slot key. -/
def answer_field (r : StandupReport) (key : String) : Option String :=
  if key == "feeling" then r.feeling
  else if key == "yesterday" then r.yesterday
  else if key == "today" then r.today
  else if key == "blockers" then r.blockers
  else none

/-- The four answer fields of a report, as a tuple (used to state
frame conditions). -/
def answer_fields (r : StandupReport) :
    Option String × Option String × Option String × Option String :=
  (r.feeling, r.yesterday, r.today, r.blockers)

/-- The user's current pending state in a database (observation used by
the theorems below). -/
def stateOf (db : DB) (uid : Nat) : Option StandupState :=
  state_get_by_user db uid

/-- The user's resolved "today". -/
def user_date_of (todayOf : String → Nat) (default_tz : String) (u : User) : Nat :=
  todayOf (effective_tz default_tz u)

/-! General list lemmas used to reason about the row-level operations. -/

/-- `find?` commutes with a map that does not change the predicate. -/
theorem find?_map_invariant (g : α → α) (p : α → Bool)
    (h : ∀ a, p (g a) = p a) :
    ∀ l : List α, (l.map g).find? p = (l.find? p).map g := by
  intro l
  induction l with
  | nil => rfl
  | cons a l ih =>
    by_cases hp : p a
    · simp [List.find?_cons, h a, hp]
    · simp [List.find?_cons, h a, hp, ih]

/-- `find?` ignores a filter that keeps every element the predicate accepts. -/
theorem find?_filter_invariant (p q : α → Bool)
    (h : ∀ a, p a = true → q a = true) :
    ∀ l : List α, (l.filter q).find? p = l.find? p := by
  intro l
  induction l with
  | nil => rfl
  | cons a l ih =>
    by_cases hp : p a
    · simp [List.filter_cons, h a hp, List.find?_cons, hp]
    · by_cases hq : q a <;> simp [List.filter_cons, hq, List.find?_cons, hp, ih]

/-- In a list whose images under `f` are distinct, searching for the image
of a member finds exactly that member. -/
theorem find?_eq_self_of_nodup_map {f : α → β} [BEq β] [LawfulBEq β]
    {l : List α} (hn : (l.map f).Nodup) {a : α} (ha : a ∈ l) :
    l.find? (fun x => f x == f a) = some a := by
  induction l with
  | nil => cases ha
  | cons b l ih =>
    rw [List.map_cons, List.nodup_cons] at hn
    rcases List.mem_cons.mp ha with rfl | ha'
    · simp [List.find?_cons]
    · have hfb : f b ≠ f a := by
        intro hcontra
        exact hn.1 (hcontra ▸ List.mem_map_of_mem f ha')
      have : (f b == f a) = false := beq_false_of_ne hfb
      simp [List.find?_cons, this, ih hn.2 ha']

/-! Observation lemmas: how each row-level operation is seen through the
query functions. -/

theorem set_answer_id (r : StandupReport) (k t : String) :
    (set_answer r k t).id = r.id := by
  unfold set_answer; repeat' split
  all_goals rfl

theorem set_answer_user_id (r : StandupReport) (k t : String) :
    (set_answer r k t).user_id = r.user_id := by
  unfold set_answer; repeat' split
  all_goals rfl

theorem set_answer_report_date (r : StandupReport) (k t : String) :
    (set_answer r k t).report_date = r.report_date := by
  unfold set_answer; repeat' split
  all_goals rfl

theorem stateOf_create_or_update_self (db : DB) (uid d : Nat) (i : Int) :
    stateOf (state_create_or_update db uid d i) uid = some ⟨uid, d, i⟩ := by
  unfold stateOf state_get_by_user state_create_or_update
  rw [List.find?_append]
  have h1 : (db.states.filter (fun s => s.user_id != uid)).find?
      (fun s => s.user_id == uid) = none := by
    rw [List.find?_eq_none]
    intro s hs
    have := (List.mem_filter.mp hs).2
    simp only [bne_iff_ne, ne_eq, decide_eq_true_eq] at this ⊢
    simp [this]
  rw [h1]
  simp

theorem stateOf_create_or_update_other (db : DB) (uid d : Nat) (i : Int)
    (uid' : Nat) (h : uid' ≠ uid) :
    stateOf (state_create_or_update db uid d i) uid' = stateOf db uid' := by
  unfold stateOf state_get_by_user state_create_or_update
  rw [List.find?_append]
  have himp : ∀ s : StandupState, (s.user_id == uid') = true →
      (s.user_id != uid) = true := by
    intro s hs
    simp only [beq_iff_eq] at hs
    simp [bne_iff_ne, hs, h]
  rw [find?_filter_invariant _ _ himp]
  cases hfind : db.states.find? (fun s => s.user_id == uid') with
  | none => simp [Ne.symm h]
  | some s => simp

theorem stateOf_delete_self (db : DB) (uid : Nat) :
    stateOf (state_delete db uid) uid = none := by
  unfold stateOf state_get_by_user state_delete
  rw [List.find?_eq_none]
  intro s hs
  have := (List.mem_filter.mp hs).2
  simp only [bne_iff_ne, ne_eq, decide_eq_true_eq] at this
  simp [this]

theorem stateOf_delete_other (db : DB) (uid uid' : Nat) (h : uid' ≠ uid) :
    stateOf (state_delete db uid) uid' = stateOf db uid' := by
  unfold stateOf state_get_by_user state_delete
  exact find?_filter_invariant _ _
    (by intro s hs
        simp only [beq_iff_eq] at hs
        simp [bne_iff_ne, hs, h]) _

theorem stateOf_set_index (db : DB) (uid : Nat) (i : Int) (s : StandupState)
    (h : stateOf db uid = some s) :
    stateOf (state_set_index db uid i) uid =
      some { s with current_question_index := i } := by
  unfold stateOf state_get_by_user state_set_index
  unfold stateOf state_get_by_user at h
  rw [find?_map_invariant _ _
    (by intro a
        by_cases ha : a.user_id == uid <;> simp [ha])]
  rw [h]
  have hp := List.find?_some h
  simp only [beq_iff_eq] at hp
  simp [hp]

/-- The report-table operations do not touch the states table. -/
theorem stateOf_report_create (db : DB) (uid d : Nat) (sk : Bool) (x : Nat) :
    stateOf (report_create db uid d sk).1 x = stateOf db x := rfl

theorem stateOf_report_set_field (db : DB) (rid : Nat) (k t : String) (x : Nat) :
    stateOf (report_set_field db rid k t) x = stateOf db x := rfl

theorem stateOf_mark_completed (db : DB) (rid now x : Nat) :
    stateOf (mark_completed db rid now) x = stateOf db x := rfl

theorem stateOf_report_update_skipped (db : DB) (rid x : Nat) :
    stateOf (report_update_skipped db rid) x = stateOf db x := rfl

/-- Queries on the reports table after a field write. -/
theorem get_by_user_date_set_field (db : DB) (rid : Nat) (k t : String)
    (uid d : Nat) :
    get_by_user_date (report_set_field db rid k t) uid d =
      (get_by_user_date db uid d).map
        (fun r => if r.id == rid then set_answer r k t else r) := by
  unfold get_by_user_date report_set_field
  exact find?_map_invariant _ _
    (by intro r
        by_cases hr : r.id == rid <;>
          simp [hr, set_answer_user_id, set_answer_report_date]) _

theorem get_by_user_date_mark_completed (db : DB) (rid now uid d : Nat) :
    get_by_user_date (mark_completed db rid now) uid d =
      (get_by_user_date db uid d).map
        (fun r => if r.id == rid then { r with completed_at := some now } else r) := by
  unfold get_by_user_date mark_completed
  exact find?_map_invariant _ _
    (by intro r; by_cases hr : r.id == rid <;> simp [hr]) _

theorem get_by_user_date_update_skipped (db : DB) (rid uid d : Nat) :
    get_by_user_date (report_update_skipped db rid) uid d =
      (get_by_user_date db uid d).map
        (fun r => if r.id == rid then { r with skipped := true } else r) := by
  unfold get_by_user_date report_update_skipped
  exact find?_map_invariant _ _
    (by intro r; by_cases hr : r.id == rid <;> simp [hr]) _

theorem get_report_by_id_set_field (db : DB) (rid : Nat) (k t : String)
    (x : Nat) :
    get_report_by_id (report_set_field db rid k t) x =
      (get_report_by_id db x).map
        (fun r => if r.id == rid then set_answer r k t else r) := by
  unfold get_report_by_id report_set_field
  exact find?_map_invariant _ _
    (by intro r
        by_cases hr : r.id == rid <;> simp [hr, set_answer_id]) _

theorem get_report_by_id_mark_completed (db : DB) (rid now x : Nat) :
    get_report_by_id (mark_completed db rid now) x =
      (get_report_by_id db x).map
        (fun r => if r.id == rid then { r with completed_at := some now } else r) := by
  unfold get_report_by_id mark_completed
  exact find?_map_invariant _ _
    (by intro r; by_cases hr : r.id == rid <;> simp [hr]) _

theorem get_report_by_id_update_skipped (db : DB) (rid x : Nat) :
    get_report_by_id (report_update_skipped db rid) x =
      (get_report_by_id db x).map
        (fun r => if r.id == rid then { r with skipped := true } else r) := by
  unfold get_report_by_id report_update_skipped
  exact find?_map_invariant _ _
    (by intro r; by_cases hr : r.id == rid <;> simp [hr]) _

/-- Queries on the reports table after inserting a fresh row. -/
theorem get_by_user_date_create_self (db : DB) (uid d : Nat) (sk : Bool)
    (h : get_by_user_date db uid d = none) :
    get_by_user_date (report_create db uid d sk).1 uid d =
      some (report_create db uid d sk).2 := by
  unfold get_by_user_date report_create
  unfold get_by_user_date at h
  rw [List.find?_append, h]
  simp

theorem get_by_user_date_create_other (db : DB) (uid d : Nat) (sk : Bool)
    (uid' d' : Nat) (h : ¬(uid' = uid ∧ d' = d)) :
    get_by_user_date (report_create db uid d sk).1 uid' d' =
      get_by_user_date db uid' d' := by
  unfold get_by_user_date report_create
  rw [List.find?_append]
  cases hfind : db.reports.find?
      (fun r => r.user_id == uid' && r.report_date == d') with
  | none =>
    simp only [Option.none_or]
    rw [List.find?_eq_none]
    intro r hr
    simp only [List.mem_singleton] at hr
    subst hr
    simp only [Bool.and_eq_true, beq_iff_eq]
    intro hcontra
    exact h ⟨hcontra.1.symm, hcontra.2.symm⟩
  | some r => simp

theorem get_report_by_id_create_old (db : DB) (uid d : Nat) (sk : Bool)
    (x : Nat) (r : StandupReport) (h : get_report_by_id db x = some r) :
    get_report_by_id (report_create db uid d sk).1 x = some r := by
  unfold get_report_by_id report_create
  unfold get_report_by_id at h
  rw [List.find?_append, h]
  rfl

theorem get_report_by_id_create_new (db : DB) (uid d : Nat) (sk : Bool)
    (hfresh : ∀ r ∈ db.reports, r.id < db.next_report_id) :
    get_report_by_id (report_create db uid d sk).1 db.next_report_id =
      some (report_create db uid d sk).2 := by
  unfold get_report_by_id report_create
  rw [List.find?_append]
  have h1 : db.reports.find? (fun r => r.id == db.next_report_id) = none := by
    rw [List.find?_eq_none]
    intro r hr
    have := hfresh r hr
    simp only [beq_iff_eq]
    omega
  rw [h1]
  simp

/-- A well-formed database finds a member report by its own id. -/
theorem get_report_by_id_self (db : DB) (hwf : WF db) (r : StandupReport)
    (hr : r ∈ db.reports) : get_report_by_id db r.id = some r := by
  unfold get_report_by_id
  exact find?_eq_self_of_nodup_map hwf.2.2.2.1 hr

/-- A well-formed database finds a member user by its own slack id. -/
theorem get_by_slack_id_self (db : DB) (hwf : WF db) (u : User)
    (hu : u ∈ db.users) : get_by_slack_id db u.slack_user_id = some u := by
  unfold get_by_slack_id
  exact find?_eq_self_of_nodup_map hwf.2.1 hu

/-! Lemmas about the dispatch loop. -/

/-- Splitting a list at a member whose images under `f` are all distinct:
no other element shares the member's image. -/
theorem nodup_split_ne {f : α → β} {l₁ l₂ : List α} {u : α}
    (hn : ((l₁ ++ u :: l₂).map f).Nodup) :
    (∀ v ∈ l₁, f v ≠ f u) ∧ (∀ v ∈ l₂, f v ≠ f u) := by
  rw [List.map_append, List.map_cons, List.nodup_append] at hn
  obtain ⟨h1, h2, hdisj⟩ := hn
  rw [List.nodup_cons] at h2
  refine ⟨fun v hv heq => ?_, fun v hv heq => ?_⟩
  · exact hdisj (List.mem_map_of_mem f hv) (heq ▸ List.mem_cons_self _ _)
  · exact h2.1 (heq ▸ List.mem_map_of_mem f hv)

/-- One dispatch iteration never touches the users or reports tables, nor
the report id counter. -/
theorem dispatch_step_frame (f : User → Bool) (t : String → Nat) (z : String)
    (acc : DB × List Msg) (u : User) :
    (dispatch_step f t z acc u).1.users = acc.1.users ∧
    (dispatch_step f t z acc u).1.reports = acc.1.reports ∧
    (dispatch_step f t z acc u).1.next_report_id = acc.1.next_report_id := by
  unfold dispatch_step
  cases dispatch_decision t z acc.1 u with
  | none => exact ⟨rfl, rfl, rfl⟩
  | some dm =>
    obtain ⟨d, m⟩ := dm
    by_cases hf : f u <;> simp [hf, state_create_or_update]

/-- The dispatch loop never touches the users or reports tables, nor the
report id counter. -/
theorem dispatch_foldl_frame (f : User → Bool) (t : String → Nat) (z : String)
    (l : List User) (acc : DB × List Msg) :
    (l.foldl (dispatch_step f t z) acc).1.users = acc.1.users ∧
    (l.foldl (dispatch_step f t z) acc).1.reports = acc.1.reports ∧
    (l.foldl (dispatch_step f t z) acc).1.next_report_id = acc.1.next_report_id := by
  induction l generalizing acc with
  | nil => exact ⟨rfl, rfl, rfl⟩
  | cons u l ih =>
    rw [List.foldl_cons]
    obtain ⟨h1, h2, h3⟩ := ih (dispatch_step f t z acc u)
    obtain ⟨g1, g2, g3⟩ := dispatch_step_frame f t z acc u
    exact ⟨h1.trans g1, h2.trans g2, h3.trans g3⟩

/-- The per-user dispatch decision reads only the reports table. -/
theorem dispatch_decision_congr (t : String → Nat) (z : String)
    {db db' : DB} (u : User) (h : db.reports = db'.reports) :
    dispatch_decision t z db u = dispatch_decision t z db' u := by
  unfold dispatch_decision get_by_user_date get_latest_by_user
  rw [h]

/-- The opening DM chosen by the dispatch decision is addressed to the
decided user. -/
theorem dispatch_decision_target (t : String → Nat) (z : String)
    (db : DB) (u : User) (d : Nat) (m : Msg)
    (h : dispatch_decision t z db u = some (d, m)) :
    dmTarget m = some u.slack_user_id := by
  unfold dispatch_decision at h
  dsimp only at h
  cases hg : get_by_user_date db u.id (t (effective_tz z u)) with
  | some r => rw [hg] at h; cases h
  | none =>
    rw [hg] at h
    dsimp only at h
    cases hl : get_latest_by_user db u.id with
    | none =>
      rw [hl] at h
      dsimp only at h
      cases h
      rfl
    | some lr =>
      rw [hl] at h
      dsimp only at h
      by_cases hlt : lr.report_date < t (effective_tz z u)
      · rw [if_pos hlt] at h; cases h; rfl
      · rw [if_neg hlt] at h; cases h; rfl

/-- One dispatch iteration for a different user does not touch this user's
pending state. -/
theorem dispatch_step_stateOf_other (f : User → Bool) (t : String → Nat)
    (z : String) (acc : DB × List Msg) (u : User) (x : Nat)
    (h : u.id ≠ x) :
    stateOf (dispatch_step f t z acc u).1 x = stateOf acc.1 x := by
  unfold dispatch_step
  cases dispatch_decision t z acc.1 u with
  | none => rfl
  | some dm =>
    obtain ⟨d, m⟩ := dm
    by_cases hf : f u
    · simp [hf]
    · simp only [hf, Bool.false_eq_true, if_false]
      exact stateOf_create_or_update_other acc.1 u.id d 0 x (Ne.symm h)

/-- The dispatch loop over users with other ids does not touch this user's
pending state. -/
theorem dispatch_foldl_stateOf_other (f : User → Bool) (t : String → Nat)
    (z : String) (l : List User) (acc : DB × List Msg) (x : Nat)
    (h : ∀ v ∈ l, v.id ≠ x) :
    stateOf (l.foldl (dispatch_step f t z) acc).1 x = stateOf acc.1 x := by
  induction l generalizing acc with
  | nil => rfl
  | cons u l ih =>
    rw [List.foldl_cons]
    rw [ih (dispatch_step f t z acc u) (fun v hv => h v (List.mem_cons_of_mem _ hv))]
    exact dispatch_step_stateOf_other f t z acc u x (h u (List.mem_cons_self _ _))

/-- Messages already sent stay in the accumulator through the loop. -/
theorem dispatch_foldl_msgs_mem (f : User → Bool) (t : String → Nat)
    (z : String) (l : List User) (acc : DB × List Msg) (m : Msg)
    (h : m ∈ acc.2) : m ∈ (l.foldl (dispatch_step f t z) acc).2 := by
  induction l generalizing acc with
  | nil => exact h
  | cons u l ih =>
    rw [List.foldl_cons]
    apply ih
    unfold dispatch_step
    cases dispatch_decision t z acc.1 u with
    | none => exact h
    | some dm =>
      obtain ⟨d, m'⟩ := dm
      by_cases hf : f u
      · simp only [hf, if_true]; exact h
      · simp only [hf, Bool.false_eq_true, if_false]
        exact List.mem_append_left _ h

/-- If no user in the list carries a given slack id and no accumulated
message targets it, the loop sends no DM to that slack id. -/
theorem dispatch_foldl_msgs_target (f : User → Bool) (t : String → Nat)
    (z : String) (l : List User) (acc : DB × List Msg) (s : String)
    (hl : ∀ v ∈ l, v.slack_user_id ≠ s)
    (hacc : ∀ m ∈ acc.2, dmTarget m ≠ some s) :
    ∀ m ∈ (l.foldl (dispatch_step f t z) acc).2, dmTarget m ≠ some s := by
  induction l generalizing acc with
  | nil => exact hacc
  | cons u l ih =>
    rw [List.foldl_cons]
    apply ih _ (fun v hv => hl v (List.mem_cons_of_mem _ hv))
    unfold dispatch_step
    cases hdec : dispatch_decision t z acc.1 u with
    | none => exact hacc
    | some dm =>
      obtain ⟨d, m'⟩ := dm
      by_cases hf : f u
      · simp only [hf, if_true]; exact hacc
      · simp only [hf, Bool.false_eq_true, if_false]
        intro m hm
        rcases List.mem_append.mp hm with hm | hm
        · exact hacc m hm
        · rw [List.mem_singleton] at hm
          rw [hm]
          rw [dispatch_decision_target t z acc.1 u d m' hdec]
          intro hcontra
          exact hl u (List.mem_cons_self _ _) (Option.some.inj hcontra)

/-- The dispatch iteration, written out (used to rewrite a fully applied
occurrence without unfolding the partially applied one inside `foldl`). -/
theorem dispatch_step_eq (f : User → Bool) (t : String → Nat) (z : String)
    (acc : DB × List Msg) (u : User) :
    dispatch_step f t z acc u =
      match dispatch_decision t z acc.1 u with
      | none => acc
      | some (d, m) =>
        if f u then acc
        else (state_create_or_update acc.1 u.id d 0, acc.2 ++ [m]) := rfl

/-- Net effect of the dispatch loop on the pending state of one member of
the processed list (no other listed user shares its id): the state is
exactly what the per-user decision on the initial database dictates. -/
theorem dispatch_foldl_effect (f : User → Bool) (t : String → Nat) (z : String)
    (l₁ l₂ : List User) (u : User) (acc : DB × List Msg)
    (h₁ : ∀ v ∈ l₁, v.id ≠ u.id) (h₂ : ∀ v ∈ l₂, v.id ≠ u.id) :
    stateOf ((l₁ ++ u :: l₂).foldl (dispatch_step f t z) acc).1 u.id =
      match dispatch_decision t z acc.1 u with
      | none => stateOf acc.1 u.id
      | some (d, _) =>
        if f u then stateOf acc.1 u.id else some ⟨u.id, d, 0⟩ := by
  rw [List.foldl_append, List.foldl_cons]
  rw [dispatch_foldl_stateOf_other f t z l₂ _ u.id h₂]
  have hrep : (l₁.foldl (dispatch_step f t z) acc).1.reports = acc.1.reports :=
    (dispatch_foldl_frame f t z l₁ acc).2.1
  have hst1 : stateOf (l₁.foldl (dispatch_step f t z) acc).1 u.id =
      stateOf acc.1 u.id :=
    dispatch_foldl_stateOf_other f t z l₁ acc u.id h₁
  rw [dispatch_step_eq]
  rw [dispatch_decision_congr t z u hrep]
  cases dispatch_decision t z acc.1 u with
  | none => exact hst1
  | some dm =>
    obtain ⟨d, m⟩ := dm
    by_cases hf : f u
    · simp only [hf, if_true]
      exact hst1
    · simp only [hf, Bool.false_eq_true, if_false]
      exact stateOf_create_or_update_self _ u.id d 0

/-- When the per-user decision chooses a DM and the user's iteration does
not fail, the DM is among the loop's sent messages. -/
theorem dispatch_foldl_msg_sent (f : User → Bool) (t : String → Nat)
    (z : String) (l₁ l₂ : List User) (u : User) (acc : DB × List Msg)
    (d : Nat) (m : Msg)
    (hdec : dispatch_decision t z acc.1 u = some (d, m)) (hf : f u = false) :
    m ∈ ((l₁ ++ u :: l₂).foldl (dispatch_step f t z) acc).2 := by
  rw [List.foldl_append, List.foldl_cons]
  apply dispatch_foldl_msgs_mem
  have hrep : (l₁.foldl (dispatch_step f t z) acc).1.reports = acc.1.reports :=
    (dispatch_foldl_frame f t z l₁ acc).2.1
  rw [dispatch_step_eq]
  rw [dispatch_decision_congr t z u hrep, hdec]
  simp [hf]

/-- When the per-user decision skips the user (or the iteration fails) and
no other listed user carries this user's slack id, the loop sends the user
no DM at all. -/
theorem dispatch_foldl_no_dm (f : User → Bool) (t : String → Nat) (z : String)
    (l₁ l₂ : List User) (u : User) (acc : DB × List Msg)
    (h₁ : ∀ v ∈ l₁, v.slack_user_id ≠ u.slack_user_id)
    (h₂ : ∀ v ∈ l₂, v.slack_user_id ≠ u.slack_user_id)
    (hacc : ∀ m ∈ acc.2, dmTarget m ≠ some u.slack_user_id)
    (hskip : dispatch_decision t z acc.1 u = none ∨ f u = true) :
    ∀ m ∈ ((l₁ ++ u :: l₂).foldl (dispatch_step f t z) acc).2,
      dmTarget m ≠ some u.slack_user_id := by
  rw [List.foldl_append, List.foldl_cons]
  apply dispatch_foldl_msgs_target f t z l₂ _ _ h₂
  have hrep : (l₁.foldl (dispatch_step f t z) acc).1.reports = acc.1.reports :=
    (dispatch_foldl_frame f t z l₁ acc).2.1
  have hacc₁ : ∀ m ∈ (l₁.foldl (dispatch_step f t z) acc).2,
      dmTarget m ≠ some u.slack_user_id :=
    dispatch_foldl_msgs_target f t z l₁ acc _ h₁ hacc
  rw [dispatch_step_eq]
  rw [dispatch_decision_congr t z u hrep]
  rcases hskip with hskip | hskip
  · rw [hskip]
    exact hacc₁
  · cases dispatch_decision t z acc.1 u with
    | none => exact hacc₁
    | some dm =>
      obtain ⟨d, m⟩ := dm
      simp only [hskip, if_true]
      exact hacc₁

/-- The messages produced by the dispatch loop depend only on the users
processed and the reports table of the starting database. -/
theorem dispatch_foldl_msgs_congr (f : User → Bool) (t : String → Nat)
    (z : String) (l : List User) (acc acc' : DB × List Msg)
    (hrep : acc.1.reports = acc'.1.reports) (hmsg : acc.2 = acc'.2) :
    (l.foldl (dispatch_step f t z) acc).2 =
      (l.foldl (dispatch_step f t z) acc').2 := by
  induction l generalizing acc acc' with
  | nil => exact hmsg
  | cons u l ih =>
    rw [List.foldl_cons, List.foldl_cons]
    apply ih
    · rw [(dispatch_step_frame f t z acc u).2.1,
          (dispatch_step_frame f t z acc' u).2.1, hrep]
    · unfold dispatch_step
      rw [dispatch_decision_congr t z u hrep]
      cases dispatch_decision t z acc'.1 u with
      | none => exact hmsg
      | some dm =>
        obtain ⟨d, m⟩ := dm
        by_cases hf : f u
        · simp only [hf, if_true]; exact hmsg
        · simp only [hf, Bool.false_eq_true, if_false]
          rw [hmsg]

/-- The ids of the active users are distinct in a well-formed database. -/
theorem list_active_nodup_ids (db : DB)
    (hn : (db.users.map (fun u => u.id)).Nodup) :
    ((list_active db).map (fun u => u.id)).Nodup :=
  List.Nodup.sublist (List.Sublist.map _ (List.filter_sublist db.users)) hn

/-- The slack ids of the active users are distinct in a well-formed
database. -/
theorem list_active_nodup_slack (db : DB)
    (hn : (db.users.map (fun u => u.slack_user_id)).Nodup) :
    ((list_active db).map (fun u => u.slack_user_id)).Nodup :=
  List.Nodup.sublist (List.Sublist.map _ (List.filter_sublist db.users)) hn

/-! Lemmas about answering a question. -/

/-- The state-table operations do not touch the reports table. -/
theorem get_by_user_date_state_set_index (db : DB) (x : Nat) (i : Int)
    (uid d : Nat) :
    get_by_user_date (state_set_index db x i) uid d = get_by_user_date db uid d :=
  rfl

theorem get_by_user_date_state_delete (db : DB) (x uid d : Nat) :
    get_by_user_date (state_delete db x) uid d = get_by_user_date db uid d :=
  rfl

theorem get_report_by_id_state_delete (db : DB) (x rid : Nat) :
    get_report_by_id (state_delete db x) rid = get_report_by_id db rid :=
  rfl

/-- Reading a slot just written yields the new text (for genuine slot keys). -/
theorem answer_field_set_self (r : StandupReport) (key t : String)
    (hk : key ∈ QUESTIONS.map Prod.fst) :
    answer_field (set_answer r key t) key = some t := by
  have hcases : key = "feeling" ∨ key = "yesterday" ∨ key = "today" ∨
      key = "blockers" := by
    simpa [QUESTIONS] using hk
  rcases hcases with rfl | rfl | rfl | rfl <;> simp [set_answer, answer_field]

/-- Writing one slot leaves every other slot unchanged. -/
theorem answer_field_set_other (r : StandupReport) (key t k : String)
    (h : k ≠ key) :
    answer_field (set_answer r key t) k = answer_field r k := by
  unfold set_answer answer_field
  repeat' split
  all_goals simp_all [beq_iff_eq]

/-- The report `handle_user_answer` writes to: the existing row for the
pending date, or the lazily created blank row. -/
def get_or_blank (db : DB) (uid d : Nat) : StandupReport :=
  match get_by_user_date db uid d with
  | some r => r
  | none => { id := db.next_report_id, user_id := uid, report_date := d }

/-- Reduction of `handle_user_answer` once the user and state are resolved,
the index guard passes, and the question lookup succeeds. -/
theorem handle_user_answer_run (now : Nat) (db : DB) (sid ans : String)
    (u : User) (st : StandupState) (q : String × String)
    (h1 : get_by_slack_id db sid = some u)
    (h2 : state_get_by_user db u.id = some st)
    (hguard : ¬ (QUESTIONS.length : Int) ≤ st.current_question_index)
    (hq : pyIndex QUESTIONS st.current_question_index = some q) :
    handle_user_answer now db sid ans =
      (let created :=
        match get_by_user_date db u.id st.pending_report_date with
        | some r => (db, r)
        | none => report_create db u.id st.pending_report_date false
      let db2 := report_set_field created.1 created.2.id q.1 ans
      if (QUESTIONS.length : Int) ≤ st.current_question_index + 1 then
        (state_delete (mark_completed db2 created.2.id now) u.id,
          .completeReport created.2.id)
      else
        (state_set_index db2 u.id (st.current_question_index + 1),
          .nextQuestion (st.current_question_index + 1))) := by
  unfold handle_user_answer
  rw [h1]
  dsimp only
  rw [h2]
  dsimp only
  rw [if_neg hguard, hq]

/-- The written report ends up stored for the pending (user, date) key. -/
theorem written_report_found (db : DB) (uid d : Nat) (key ans : String) :
    get_by_user_date
      (report_set_field
        (match get_by_user_date db uid d with
          | some _ => db
          | none => (report_create db uid d false).1)
        (get_or_blank db uid d).id key ans) uid d =
      some (set_answer (get_or_blank db uid d) key ans) := by
  cases hr : get_by_user_date db uid d with
  | some r =>
    dsimp only
    unfold get_or_blank
    rw [hr]
    dsimp only
    rw [get_by_user_date_set_field, hr]
    simp
  | none =>
    dsimp only
    unfold get_or_blank
    rw [hr]
    dsimp only
    rw [get_by_user_date_set_field]
    rw [get_by_user_date_create_self db uid d false hr]
    simp [report_create]

/-- A successful Python index lookup yields a list member. -/
theorem pyIndex_mem {xs : List α} {i : Int} {a : α}
    (h : pyIndex xs i = some a) : a ∈ xs := by
  unfold pyIndex at h
  split at h
  · obtain ⟨hlt, hget⟩ := List.getElem?_eq_some.mp h
    exact hget ▸ List.getElem_mem hlt
  · split at h
    · obtain ⟨hlt, hget⟩ := List.getElem?_eq_some.mp h
      exact hget ▸ List.getElem_mem hlt
    · cases h

/-- Queries depend only on the table they read. -/
theorem get_report_by_id_congr {db db' : DB} (h : db.reports = db'.reports)
    (x : Nat) : get_report_by_id db x = get_report_by_id db' x := by
  unfold get_report_by_id
  rw [h]

theorem get_by_slack_id_congr {db db' : DB} (h : db.users = db'.users)
    (s : String) : get_by_slack_id db s = get_by_slack_id db' s := by
  unfold get_by_slack_id
  rw [h]

theorem list_active_congr {db db' : DB} (h : db.users = db'.users) :
    list_active db = list_active db' := by
  unfold list_active
  rw [h]

/-- First component of the get-or-create pair in `handle_user_answer`. -/
theorem created_fst (db : DB) (uid d : Nat) :
    (match get_by_user_date db uid d with
      | some r => (db, r)
      | none => report_create db uid d false).1 =
      (match get_by_user_date db uid d with
        | some _ => db
        | none => (report_create db uid d false).1) := by
  cases get_by_user_date db uid d <;> rfl

/-- Second component of the get-or-create pair in `handle_user_answer`. -/
theorem created_snd (db : DB) (uid d : Nat) :
    (match get_by_user_date db uid d with
      | some r => (db, r)
      | none => report_create db uid d false).2 = get_or_blank db uid d := by
  unfold get_or_blank
  cases get_by_user_date db uid d <;> rfl

/-- The get-or-create step touches neither states nor users. -/
theorem stateOf_created (db : DB) (uid d x : Nat) :
    stateOf (match get_by_user_date db uid d with
      | some _ => db
      | none => (report_create db uid d false).1) x = stateOf db x := by
  cases get_by_user_date db uid d <;> rfl

theorem users_created (db : DB) (uid d : Nat) :
    (match get_by_user_date db uid d with
      | some _ => db
      | none => (report_create db uid d false).1).users = db.users := by
  cases get_by_user_date db uid d <;> rfl

/-! Reductions of `handle_user_answer` on its error paths. -/

theorem handle_user_answer_no_user (now : Nat) (db : DB) (sid ans : String)
    (h : get_by_slack_id db sid = none) :
    handle_user_answer now db sid ans =
      (db, .errorMsg "User not found in database") := by
  unfold handle_user_answer
  rw [h]

theorem handle_user_answer_no_state (now : Nat) (db : DB) (sid ans : String)
    (u : User) (h1 : get_by_slack_id db sid = some u)
    (h2 : state_get_by_user db u.id = none) :
    handle_user_answer now db sid ans =
      (db, .errorMsg "No pending standup. Start with /standup or wait for scheduled time.") := by
  unfold handle_user_answer
  rw [h1]
  dsimp only
  rw [h2]

theorem handle_user_answer_invalid (now : Nat) (db : DB) (sid ans : String)
    (u : User) (st : StandupState)
    (h1 : get_by_slack_id db sid = some u)
    (h2 : state_get_by_user db u.id = some st)
    (hg : (QUESTIONS.length : Int) ≤ st.current_question_index) :
    handle_user_answer now db sid ans = (db, .errorMsg "Invalid state") := by
  unfold handle_user_answer
  rw [h1]
  dsimp only
  rw [h2]
  dsimp only
  rw [if_pos hg]

theorem handle_user_answer_raised (now : Nat) (db : DB) (sid ans : String)
    (u : User) (st : StandupState)
    (h1 : get_by_slack_id db sid = some u)
    (h2 : state_get_by_user db u.id = some st)
    (hg : ¬ (QUESTIONS.length : Int) ≤ st.current_question_index)
    (hq : pyIndex QUESTIONS st.current_question_index = none) :
    handle_user_answer now db sid ans = (db, .raised) := by
  unfold handle_user_answer
  rw [h1]
  dsimp only
  rw [h2]
  dsimp only
  rw [if_neg hg, hq]

/-! Concrete fixtures used by witnesses and counterexamples. -/

/-- A concrete active user. -/
def exUser : User := ⟨1, "U1", "Alice", none, true⟩

/-- QUESTIONS has four entries, as an integer. -/
theorem questions_len : (QUESTIONS.length : Int) = 4 := by decide

/-- C2: for a user with a PendingState at index `i` with `0 ≤ i <
N_QUESTIONS - 1`, one `handle_user_answer` call returns
`next_question` with index `i + 1`, sets the state's index to `i + 1`
(touching nothing else in the state), stores a report for the pending
date whose slot-`i` field holds the answer text, and leaves every other
answer field of that report as it was (empty for a lazily created row). -/
theorem c2_monotonic_advancement (now : Nat) (db : DB) (sid ans : String)
    (u : User) (st : StandupState) (i : Int) (q : String × String)
    (h1 : get_by_slack_id db sid = some u)
    (h2 : state_get_by_user db u.id = some st)
    (hi : st.current_question_index = i)
    (h0 : 0 ≤ i) (hlt : i < (QUESTIONS.length : Int) - 1)
    (hq : pyIndex QUESTIONS i = some q) :
    (handle_user_answer now db sid ans).2 = .nextQuestion (i + 1) ∧
    stateOf (handle_user_answer now db sid ans).1 u.id =
      some { st with current_question_index := i + 1 } ∧
    get_by_user_date (handle_user_answer now db sid ans).1 u.id
        st.pending_report_date =
      some (set_answer (get_or_blank db u.id st.pending_report_date) q.1 ans) ∧
    answer_field (set_answer (get_or_blank db u.id st.pending_report_date)
        q.1 ans) q.1 = some ans ∧
    ∀ k ∈ QUESTIONS.map Prod.fst, k ≠ q.1 →
      answer_field (set_answer (get_or_blank db u.id st.pending_report_date)
          q.1 ans) k =
        answer_field (get_or_blank db u.id st.pending_report_date) k := by
  subst hi
  have hguard : ¬ (QUESTIONS.length : Int) ≤ st.current_question_index := by
    rw [questions_len] at hlt ⊢
    omega
  have HE := handle_user_answer_run now db sid ans u st q h1 h2 hguard hq
  dsimp only at HE
  rw [created_fst, created_snd] at HE
  have hif : ¬ (QUESTIONS.length : Int) ≤ st.current_question_index + 1 := by
    rw [questions_len] at hlt ⊢
    omega
  rw [if_neg hif] at HE
  rw [HE]
  dsimp only
  refine ⟨rfl, ?_, ?_, ?_, ?_⟩
  · have hst2 : stateOf
        (report_set_field
          (match get_by_user_date db u.id st.pending_report_date with
            | some _ => db
            | none => (report_create db u.id st.pending_report_date false).1)
          (get_or_blank db u.id st.pending_report_date).id q.1 ans) u.id =
        some st := by
      rw [stateOf_report_set_field, stateOf_created]
      exact h2
    exact stateOf_set_index _ _ _ st hst2
  · rw [get_by_user_date_state_set_index]
    exact written_report_found db u.id st.pending_report_date q.1 ans
  · exact answer_field_set_self _ _ _
      (List.mem_map_of_mem Prod.fst (pyIndex_mem hq))
  · intro k _ hkne
    exact answer_field_set_other _ _ _ _ hkne

/-- Witness database for C2: one active user at question index 0. -/
def dbW2 : DB := ⟨[exUser], [], [⟨1, 10, 0⟩], 1⟩

/-- C2 witness: the theorem applied to a concrete database. -/
theorem c2_witness :
    (get_by_slack_id dbW2 "U1" = some exUser ∧
      state_get_by_user dbW2 exUser.id = some ⟨1, 10, 0⟩ ∧
      (0 : Int) ≤ 0 ∧ (0 : Int) < (QUESTIONS.length : Int) - 1 ∧
      pyIndex QUESTIONS 0 = some ("feeling", "How are you feeling today?")) ∧
    ((handle_user_answer 100 dbW2 "U1" "Good").2 = .nextQuestion (0 + 1) ∧
      stateOf (handle_user_answer 100 dbW2 "U1" "Good").1 exUser.id =
        some { user_id := 1, pending_report_date := 10,
               current_question_index := 0 + 1 } ∧
      get_by_user_date (handle_user_answer 100 dbW2 "U1" "Good").1 exUser.id 10 =
        some (set_answer (get_or_blank dbW2 exUser.id 10) "feeling" "Good") ∧
      answer_field (set_answer (get_or_blank dbW2 exUser.id 10)
          "feeling" "Good") "feeling" = some "Good" ∧
      answer_field (set_answer (get_or_blank dbW2 exUser.id 10)
          "feeling" "Good") "blockers" =
        answer_field (get_or_blank dbW2 exUser.id 10) "blockers") :=
  ⟨⟨by decide, by decide, by decide, by decide, by decide⟩,
    by
      have h := c2_monotonic_advancement 100 dbW2 "U1" "Good" exUser ⟨1, 10, 0⟩ 0
        ("feeling", "How are you feeling today?")
        (by decide) (by decide) (by decide) (by decide) (by decide) (by decide)
      exact ⟨h.1, h.2.1, h.2.2.1, h.2.2.2.1,
        h.2.2.2.2 "blockers" (by decide) (by decide)⟩⟩

/-- C10: `handle_user_answer` never changes `pending_report_date` — when
the call returns `next_question`, the state afterwards is the old state
with only `current_question_index` advanced by one, and the returned index
is the advanced one. -/
theorem c10_pending_date_unchanged (now : Nat) (db : DB) (sid ans : String)
    (u : User) (st : StandupState) (j : Int)
    (h1 : get_by_slack_id db sid = some u)
    (h2 : state_get_by_user db u.id = some st)
    (hres : (handle_user_answer now db sid ans).2 = .nextQuestion j) :
    stateOf (handle_user_answer now db sid ans).1 u.id =
      some { st with current_question_index :=
               st.current_question_index + 1 } ∧
    j = st.current_question_index + 1 := by
  by_cases hg : (QUESTIONS.length : Int) ≤ st.current_question_index
  · rw [handle_user_answer_invalid now db sid ans u st h1 h2 hg] at hres
    cases hres
  · cases hq : pyIndex QUESTIONS st.current_question_index with
    | none =>
      rw [handle_user_answer_raised now db sid ans u st h1 h2 hg hq] at hres
      cases hres
    | some q =>
      have HE := handle_user_answer_run now db sid ans u st q h1 h2 hg hq
      dsimp only at HE
      rw [created_fst, created_snd] at HE
      by_cases hif : (QUESTIONS.length : Int) ≤ st.current_question_index + 1
      · rw [if_pos hif] at HE
        rw [HE] at hres
        cases hres
      · rw [if_neg hif] at HE
        rw [HE] at hres ⊢
        dsimp only at hres ⊢
        have hst2 : stateOf
            (report_set_field
              (match get_by_user_date db u.id st.pending_report_date with
                | some _ => db
                | none =>
                  (report_create db u.id st.pending_report_date false).1)
              (get_or_blank db u.id st.pending_report_date).id q.1 ans) u.id =
            some st := by
          rw [stateOf_report_set_field, stateOf_created]
          exact h2
        refine ⟨stateOf_set_index _ _ _ st hst2, ?_⟩
        injection hres with hj
        exact hj.symm

/-- Witness database for C10: one active user at question index 2. -/
def dbW10 : DB := ⟨[exUser], [], [⟨1, 10, 2⟩], 1⟩

/-- C10 witness: the theorem applied to a concrete database. -/
theorem c10_witness :
    (get_by_slack_id dbW10 "U1" = some exUser ∧
      state_get_by_user dbW10 exUser.id = some ⟨1, 10, 2⟩ ∧
      (handle_user_answer 100 dbW10 "U1" "x").2 = .nextQuestion 3) ∧
    (stateOf (handle_user_answer 100 dbW10 "U1" "x").1 exUser.id =
        some { user_id := 1, pending_report_date := 10,
               current_question_index := (2 : Int) + 1 } ∧
      (3 : Int) = (2 : Int) + 1) :=
  ⟨⟨by decide, by decide, by decide⟩,
    c10_pending_date_unchanged 100 dbW10 "U1" "x" exUser ⟨1, 10, 2⟩ 3
      (by decide) (by decide) (by decide)⟩

/-- C8 counterexample: at question index `-1` (outside `[0, N_QUESTIONS)`)
the call does not return the CorruptState error: it writes the answer into
the `blockers` field (Python negative indexing) and advances the index to
0, returning `next_question`. -/
def dbC8 : DB := ⟨[exUser], [], [⟨1, 5, -1⟩], 1⟩

/-- C8 counterexample: a negative question index is not rejected. -/
theorem c8_counterexample :
    stateOf dbC8 1 = some ⟨1, 5, -1⟩ ∧
    (handle_user_answer 100 dbC8 "U1" "ans").2 = .nextQuestion 0 ∧
    (handle_user_answer 100 dbC8 "U1" "ans").2 ≠ .errorMsg "Invalid state" ∧
    (get_by_user_date (handle_user_answer 100 dbC8 "U1" "ans").1 1 5).map
      (fun r => r.blockers) = some (some "ans") ∧
    stateOf (handle_user_answer 100 dbC8 "U1" "ans").1 1 = some ⟨1, 5, 0⟩ := by
  decide

/-- C8 (amended): only the upper bound is guarded — when the resolved
PendingState has `current_question_index ≥ N_QUESTIONS`, the call returns
the CorruptState error (`"Invalid state"`) and leaves the database
unchanged (no field written, no index advanced). Negative indices are not
rejected: they address slots from the end via Python negative indexing. -/
theorem c8_corrupt_state_upper_guard (now : Nat) (db : DB) (sid ans : String)
    (u : User) (st : StandupState)
    (h1 : get_by_slack_id db sid = some u)
    (h2 : state_get_by_user db u.id = some st)
    (hg : (QUESTIONS.length : Int) ≤ st.current_question_index) :
    handle_user_answer now db sid ans = (db, .errorMsg "Invalid state") :=
  handle_user_answer_invalid now db sid ans u st h1 h2 hg

/-- Witness database for C8: one active user at question index 7. -/
def dbW8 : DB := ⟨[exUser], [], [⟨1, 5, 7⟩], 1⟩

/-- C8 witness: the amended theorem applied to a concrete database. -/
theorem c8_witness :
    (get_by_slack_id dbW8 "U1" = some exUser ∧
      state_get_by_user dbW8 exUser.id = some ⟨1, 5, 7⟩ ∧
      (QUESTIONS.length : Int) ≤ (7 : Int)) ∧
    handle_user_answer 100 dbW8 "U1" "x" = (dbW8, .errorMsg "Invalid state") :=
  ⟨⟨by decide, by decide, by decide⟩,
    c8_corrupt_state_upper_guard 100 dbW8 "U1" "x" exUser ⟨1, 5, 7⟩
      (by decide) (by decide) (by decide)⟩

/-! The users table is untouched by every row-level mutation the state
machine performs. -/

theorem users_state_delete (db : DB) (x : Nat) :
    (state_delete db x).users = db.users := rfl

theorem users_mark_completed (db : DB) (rid now : Nat) :
    (mark_completed db rid now).users = db.users := rfl

theorem users_report_set_field (db : DB) (rid : Nat) (k t : String) :
    (report_set_field db rid k t).users = db.users := rfl

/-- The get-or-create pair, queried by the written report's id, returns
the written report. -/
theorem get_report_by_id_M_self (db : DB) (uid d : Nat) (hwf : WF db) :
    get_report_by_id
      (match get_by_user_date db uid d with
        | some _ => db
        | none => (report_create db uid d false).1)
      (get_or_blank db uid d).id = some (get_or_blank db uid d) := by
  cases hr : get_by_user_date db uid d with
  | some r0 =>
    dsimp only
    unfold get_or_blank
    rw [hr]
    have hr' : db.reports.find?
        (fun r => r.user_id == uid && r.report_date == d) = some r0 := hr
    exact get_report_by_id_self db hwf r0 (List.mem_of_find?_eq_some hr')
  | none =>
    dsimp only
    unfold get_or_blank
    rw [hr]
    dsimp only
    simpa [report_create] using
      get_report_by_id_create_new db uid d false hwf.2.2.2.2.2

/-- C3: when the PendingState sits at the final question index
`N_QUESTIONS - 1`, one `handle_user_answer` call marks the report for the
pending date completed (`completed_at = now`, non-null), deletes the
PendingState, returns `complete_report` with the report's id, and any
subsequent `handle_user_answer` for that user returns the
NoPendingStandup error, leaving the database unchanged. -/
theorem c3_completion (now : Nat) (db : DB) (sid ans : String)
    (u : User) (st : StandupState)
    (hwf : WF db)
    (h1 : get_by_slack_id db sid = some u)
    (h2 : state_get_by_user db u.id = some st)
    (hi : st.current_question_index = (QUESTIONS.length : Int) - 1) :
    (handle_user_answer now db sid ans).2 =
      .completeReport (get_or_blank db u.id st.pending_report_date).id ∧
    (∃ r2, get_report_by_id (handle_user_answer now db sid ans).1
        (get_or_blank db u.id st.pending_report_date).id = some r2 ∧
      r2.completed_at = some now) ∧
    stateOf (handle_user_answer now db sid ans).1 u.id = none ∧
    ∀ now2 ans2,
      handle_user_answer now2 (handle_user_answer now db sid ans).1 sid ans2 =
        ((handle_user_answer now db sid ans).1,
          .errorMsg "No pending standup. Start with /standup or wait for scheduled time.") := by
  have hg : ¬ (QUESTIONS.length : Int) ≤ st.current_question_index := by
    rw [hi, questions_len]
    omega
  have hq : pyIndex QUESTIONS st.current_question_index =
      some ("blockers", "Any blockers or challenges?") := by
    rw [hi, questions_len]
    decide
  have HE := handle_user_answer_run now db sid ans u st
    ("blockers", "Any blockers or challenges?") h1 h2 hg hq
  dsimp only at HE
  rw [created_fst, created_snd] at HE
  have hif : (QUESTIONS.length : Int) ≤ st.current_question_index + 1 := by
    rw [hi, questions_len]
    omega
  rw [if_pos hif] at HE
  rw [HE]
  dsimp only
  refine ⟨rfl, ?_, stateOf_delete_self _ _, ?_⟩
  · rw [get_report_by_id_state_delete, get_report_by_id_mark_completed,
        get_report_by_id_set_field,
        get_report_by_id_M_self db u.id st.pending_report_date hwf]
    simp
    rw [set_answer_id]
    simp
  · intro now2 ans2
    have husers :
        (state_delete
          (mark_completed
            (report_set_field
              (match get_by_user_date db u.id st.pending_report_date with
                | some _ => db
                | none =>
                  (report_create db u.id st.pending_report_date false).1)
              (get_or_blank db u.id st.pending_report_date).id
              "blockers" ans)
            (get_or_blank db u.id st.pending_report_date).id now)
          u.id).users = db.users := by
      rw [users_state_delete, users_mark_completed, users_report_set_field,
          users_created]
    have hsb := (get_by_slack_id_congr husers sid).trans h1
    exact handle_user_answer_no_state now2 _ sid ans2 u hsb
      (stateOf_delete_self _ _)

/-- Witness database for C3: one active user at the final question index. -/
def dbW3 : DB := ⟨[exUser], [], [⟨1, 10, 3⟩], 1⟩

/-- C3 witness: the theorem applied to a concrete database. -/
theorem c3_witness :
    (WF dbW3 ∧ get_by_slack_id dbW3 "U1" = some exUser ∧
      state_get_by_user dbW3 exUser.id = some ⟨1, 10, 3⟩ ∧
      (3 : Int) = (QUESTIONS.length : Int) - 1) ∧
    ((handle_user_answer 100 dbW3 "U1" "None").2 =
        .completeReport (get_or_blank dbW3 exUser.id 10).id ∧
      (∃ r2, get_report_by_id (handle_user_answer 100 dbW3 "U1" "None").1
          (get_or_blank dbW3 exUser.id 10).id = some r2 ∧
        r2.completed_at = some 100) ∧
      stateOf (handle_user_answer 100 dbW3 "U1" "None").1 exUser.id = none ∧
      handle_user_answer 101 (handle_user_answer 100 dbW3 "U1" "None").1
          "U1" "again" =
        ((handle_user_answer 100 dbW3 "U1" "None").1,
          .errorMsg "No pending standup. Start with /standup or wait for scheduled time.")) :=
  ⟨⟨by decide, by decide, by decide, by decide⟩,
    by
      have h := c3_completion 100 dbW3 "U1" "None" exUser ⟨1, 10, 3⟩
        (by decide) (by decide) (by decide) (by decide)
      exact ⟨h.1, h.2.1, h.2.2.1, h.2.2.2 101 "again"⟩⟩

/-! Characterisations of `send_pending_standups` per user. -/

/-- Dispatch leaves the users table unchanged. -/
theorem send_users (fails : User → Bool) (t : String → Nat) (z : String)
    (db : DB) :
    (send_pending_standups fails t z db).1.users = db.users := by
  unfold send_pending_standups
  exact (dispatch_foldl_frame fails t z (list_active db) (db, [])).1

/-- Dispatch leaves the reports table unchanged. -/
theorem send_reports (fails : User → Bool) (t : String → Nat) (z : String)
    (db : DB) :
    (send_pending_standups fails t z db).1.reports = db.reports := by
  unfold send_pending_standups
  exact (dispatch_foldl_frame fails t z (list_active db) (db, [])).2.1

/-- The pending state of an active user after one dispatch is decided by
the per-user decision on the initial database. -/
theorem send_effect_mem (fails : User → Bool) (t : String → Nat) (z : String)
    (db : DB) (hnid : (db.users.map (fun u => u.id)).Nodup)
    (u : User) (hmem : u ∈ list_active db) :
    stateOf (send_pending_standups fails t z db).1 u.id =
      match dispatch_decision t z db u with
      | none => stateOf db u.id
      | some (d, _) =>
        if fails u then stateOf db u.id else some ⟨u.id, d, 0⟩ := by
  obtain ⟨l₁, l₂, hsplit⟩ := List.append_of_mem hmem
  have hnid2 := list_active_nodup_ids db hnid
  rw [hsplit] at hnid2
  obtain ⟨hne₁, hne₂⟩ := nodup_split_ne hnid2
  unfold send_pending_standups
  rw [hsplit,
      dispatch_foldl_effect fails t z l₁ l₂ u (db, []) hne₁ hne₂]

/-- A user id not belonging to any active user keeps its pending state
through a dispatch. -/
theorem send_stateOf_nonmem (fails : User → Bool) (t : String → Nat)
    (z : String) (db : DB) (uid : Nat)
    (h : ∀ v ∈ list_active db, v.id ≠ uid) :
    stateOf (send_pending_standups fails t z db).1 uid = stateOf db uid := by
  unfold send_pending_standups
  exact dispatch_foldl_stateOf_other fails t z (list_active db) (db, []) uid h

/-- An active user whose decision is a DM and whose iteration does not
fail receives that DM. -/
theorem send_msg_sent (fails : User → Bool) (t : String → Nat) (z : String)
    (db : DB) (u : User) (hmem : u ∈ list_active db)
    (d : Nat) (m : Msg)
    (hdec : dispatch_decision t z db u = some (d, m)) (hf : fails u = false) :
    m ∈ (send_pending_standups fails t z db).2 := by
  obtain ⟨l₁, l₂, hsplit⟩ := List.append_of_mem hmem
  unfold send_pending_standups
  rw [hsplit]
  exact dispatch_foldl_msg_sent fails t z l₁ l₂ u (db, []) d m hdec hf

/-- An active user whose decision is a skip, or whose iteration fails,
receives no DM from the dispatch. -/
theorem send_no_dm (fails : User → Bool) (t : String → Nat) (z : String)
    (db : DB) (hnsl : (db.users.map (fun u => u.slack_user_id)).Nodup)
    (u : User) (hmem : u ∈ list_active db)
    (hskip : dispatch_decision t z db u = none ∨ fails u = true) :
    ∀ m ∈ (send_pending_standups fails t z db).2,
      dmTarget m ≠ some u.slack_user_id := by
  obtain ⟨l₁, l₂, hsplit⟩ := List.append_of_mem hmem
  have hnsl2 := list_active_nodup_slack db hnsl
  rw [hsplit] at hnsl2
  obtain ⟨hsl₁, hsl₂⟩ := nodup_split_ne hnsl2
  unfold send_pending_standups
  rw [hsplit]
  exact dispatch_foldl_no_dm fails t z l₁ l₂ u (db, []) hsl₁ hsl₂
    (by intro m hm; cases hm) hskip

/-- The batch of DMs a dispatch sends depends only on users and reports. -/
theorem send_msgs_congr (fails : User → Bool) (t : String → Nat) (z : String)
    (db db' : DB) (hu : db.users = db'.users) (hr : db.reports = db'.reports) :
    (send_pending_standups fails t z db).2 =
      (send_pending_standups fails t z db').2 := by
  unfold send_pending_standups
  rw [list_active_congr hu]
  exact dispatch_foldl_msgs_congr fails t z (list_active db') (db, [])
    (db', []) hr rfl

/-- C1: for an active user whose most recent report predates the resolved
"today" (and who has no report for today), one dispatch overwrites the
user's PendingState with the missed date — the latest report's own date,
not today — at question index 0, and sends the catch-up DM referencing
that missed date. -/
theorem c1_catchup_dispatch (todayOf : String → Nat) (z : String) (db : DB)
    (u : User) (lr : StandupReport)
    (hwf : WF db) (hmem : u ∈ list_active db)
    (hno : get_by_user_date db u.id (user_date_of todayOf z u) = none)
    (hlat : get_latest_by_user db u.id = some lr)
    (hlt : lr.report_date < user_date_of todayOf z u) :
    stateOf (send_pending_standups (fun _ => false) todayOf z db).1 u.id =
      some ⟨u.id, lr.report_date, 0⟩ ∧
    Msg.missedDM u.slack_user_id lr.report_date ∈
      (send_pending_standups (fun _ => false) todayOf z db).2 := by
  have hdec : dispatch_decision todayOf z db u =
      some (lr.report_date, Msg.missedDM u.slack_user_id lr.report_date) := by
    unfold user_date_of at hno hlt
    unfold dispatch_decision
    dsimp only
    rw [hno]
    dsimp only
    rw [hlat]
    dsimp only
    rw [if_pos hlt]
  refine ⟨?_, send_msg_sent _ todayOf z db u hmem _ _ hdec rfl⟩
  rw [send_effect_mem _ todayOf z db hwf.1 u hmem, hdec]
  simp

/-- Witness database for C1: the spec's U2 scenario — last report on day
8, today resolves to day 10. -/
def exUser2 : User := ⟨1, "U2", "Bob", none, true⟩

def dbW1 : DB :=
  ⟨[exUser2], [⟨1, 1, 8, some "f", none, none, none, false, some 50⟩], [], 2⟩

/-- C1 witness: the theorem applied to a concrete database. -/
theorem c1_witness :
    (WF dbW1 ∧ exUser2 ∈ list_active dbW1 ∧
      get_by_user_date dbW1 exUser2.id
        (user_date_of (fun _ => 10) "Asia/Kolkata" exUser2) = none ∧
      get_latest_by_user dbW1 exUser2.id =
        some ⟨1, 1, 8, some "f", none, none, none, false, some 50⟩ ∧
      (8 : Nat) < user_date_of (fun _ => 10) "Asia/Kolkata" exUser2) ∧
    (stateOf (send_pending_standups (fun _ => false) (fun _ => 10)
        "Asia/Kolkata" dbW1).1 exUser2.id = some ⟨exUser2.id, 8, 0⟩ ∧
      Msg.missedDM exUser2.slack_user_id 8 ∈
        (send_pending_standups (fun _ => false) (fun _ => 10)
          "Asia/Kolkata" dbW1).2) :=
  ⟨⟨by decide, by decide, by decide, by decide, by decide⟩,
    c1_catchup_dispatch (fun _ => 10) "Asia/Kolkata" dbW1 exUser2
      ⟨1, 1, 8, some "f", none, none, none, false, some 50⟩
      (by decide) (by decide) (by decide) (by decide) (by decide)⟩

/-- C5: for an active user already holding a report for the resolved
"today", one dispatch sends that user no DM and leaves the user's pending
state untouched. -/
theorem c5_noop_when_report_exists (fails : User → Bool)
    (todayOf : String → Nat) (z : String) (db : DB) (u : User)
    (r : StandupReport)
    (hwf : WF db) (hmem : u ∈ list_active db)
    (hex : get_by_user_date db u.id (user_date_of todayOf z u) = some r) :
    stateOf (send_pending_standups fails todayOf z db).1 u.id =
      stateOf db u.id ∧
    ∀ m ∈ (send_pending_standups fails todayOf z db).2,
      dmTarget m ≠ some u.slack_user_id := by
  have hdec : dispatch_decision todayOf z db u = none := by
    unfold user_date_of at hex
    unfold dispatch_decision
    dsimp only
    rw [hex]
  refine ⟨?_, send_no_dm fails todayOf z db hwf.2.1 u hmem (Or.inl hdec)⟩
  rw [send_effect_mem fails todayOf z db hwf.1 u hmem, hdec]

/-- Witness database for C5: one active user with a report already dated
today (day 10). -/
def dbW5 : DB :=
  ⟨[exUser], [⟨1, 1, 10, none, none, none, none, false, none⟩], [], 2⟩

/-- C5 witness: the theorem applied to a concrete database. -/
theorem c5_witness :
    (WF dbW5 ∧ exUser ∈ list_active dbW5 ∧
      get_by_user_date dbW5 exUser.id
          (user_date_of (fun _ => 10) "tz" exUser) =
        some ⟨1, 1, 10, none, none, none, none, false, none⟩) ∧
    stateOf (send_pending_standups (fun _ => false) (fun _ => 10) "tz"
        dbW5).1 exUser.id = stateOf dbW5 exUser.id :=
  ⟨⟨by decide, by decide, by decide⟩,
    (c5_noop_when_report_exists (fun _ => false) (fun _ => 10) "tz" dbW5
      exUser ⟨1, 1, 10, none, none, none, none, false, none⟩
      (by decide) (by decide) (by decide)).1⟩

/-- C9: a per-user failure during dispatch (the exception raised at the DM
send or the following state write, modelled by the `fails` oracle) is
caught and does not abort the batch — every other active user still
receives the full effect of their own decision — while the failing user's
pending state is left exactly as it was (no state created this tick) and
no DM reaches the failing user. -/
theorem c9_batch_resilience (fails : User → Bool) (todayOf : String → Nat)
    (z : String) (db : DB) (u : User)
    (hwf : WF db) (hmem : u ∈ list_active db) :
    (fails u = true →
      stateOf (send_pending_standups fails todayOf z db).1 u.id =
        stateOf db u.id ∧
      ∀ m ∈ (send_pending_standups fails todayOf z db).2,
        dmTarget m ≠ some u.slack_user_id) ∧
    (fails u = false →
      (dispatch_decision todayOf z db u = none →
        stateOf (send_pending_standups fails todayOf z db).1 u.id =
          stateOf db u.id) ∧
      ∀ d m, dispatch_decision todayOf z db u = some (d, m) →
        stateOf (send_pending_standups fails todayOf z db).1 u.id =
          some ⟨u.id, d, 0⟩ ∧
        m ∈ (send_pending_standups fails todayOf z db).2) := by
  constructor
  · intro hfail
    refine ⟨?_, send_no_dm fails todayOf z db hwf.2.1 u hmem (Or.inr hfail)⟩
    rw [send_effect_mem fails todayOf z db hwf.1 u hmem]
    cases hdec : dispatch_decision todayOf z db u with
    | none => simp
    | some dm =>
      obtain ⟨d, m⟩ := dm
      simp [hfail]
  · intro hok
    constructor
    · intro hdec
      rw [send_effect_mem fails todayOf z db hwf.1 u hmem, hdec]
    · intro d m hdec
      refine ⟨?_, send_msg_sent fails todayOf z db u hmem d m hdec hok⟩
      rw [send_effect_mem fails todayOf z db hwf.1 u hmem, hdec]
      simp [hok]

/-- A second concrete active user for the C9 witness. -/
def exUserB : User := ⟨2, "U9", "Carol", none, true⟩

/-- Witness database for C9: two active users, no reports. -/
def dbW9 : DB := ⟨[exUser, exUserB], [], [], 1⟩

/-- C9 witness: the theorem applied to a concrete database where the
iteration for user 1 fails and the one for user 2 succeeds. -/
theorem c9_witness :
    (WF dbW9 ∧ exUser ∈ list_active dbW9 ∧ exUserB ∈ list_active dbW9 ∧
      (fun v : User => v.id == 1) exUser = true ∧
      (fun v : User => v.id == 1) exUserB = false ∧
      dispatch_decision (fun _ => 10) "tz" dbW9 exUserB =
        some (10, Msg.startDM "U9")) ∧
    (stateOf (send_pending_standups (fun v => v.id == 1) (fun _ => 10) "tz"
        dbW9).1 exUser.id = stateOf dbW9 exUser.id ∧
      stateOf (send_pending_standups (fun v => v.id == 1) (fun _ => 10) "tz"
          dbW9).1 exUserB.id = some ⟨exUserB.id, 10, 0⟩ ∧
      Msg.startDM "U9" ∈
        (send_pending_standups (fun v => v.id == 1) (fun _ => 10) "tz"
          dbW9).2) :=
  ⟨⟨by decide, by decide, by decide, by decide, by decide, by decide⟩,
    by
      have h1 := c9_batch_resilience (fun v => v.id == 1) (fun _ => 10) "tz"
        dbW9 exUser (by decide) (by decide)
      have h2 := c9_batch_resilience (fun v => v.id == 1) (fun _ => 10) "tz"
        dbW9 exUserB (by decide) (by decide)
      have h2ok := (h2.2 (by decide)).2 10 (Msg.startDM "U9") (by decide)
      exact ⟨(h1.1 (by decide)).1, h2ok.1, h2ok.2⟩⟩

/-- C6 counterexample database: one active user, no reports. -/
def dbC6 : DB := ⟨[exUser], [], [], 1⟩

/-- C6 counterexample: because reports are created lazily (never by the
dispatcher), the second of two back-to-back dispatch calls finds no report
for today and sends the opening DM again — a duplicate DM, so the second
call is not a no-op. -/
theorem c6_counterexample :
    (send_pending_standups (fun _ => false) (fun _ => 10) "tz" dbC6).2 =
      [Msg.startDM "U1"] ∧
    (send_pending_standups (fun _ => false) (fun _ => 10) "tz"
        (send_pending_standups (fun _ => false) (fun _ => 10) "tz"
          dbC6).1).2 = [Msg.startDM "U1"] ∧
    dmTarget (Msg.startDM "U1") = some exUser.slack_user_id := by
  decide

/-- C6 (amended): calling dispatch twice in succession with no answer or
skip handled in between leaves every user id with the same single
PendingState (the second call overwrites each created state with identical
content), and the second call sends exactly the same batch of opening DMs
as the first — it is not a no-op and duplicates every DM, because dispatch
only checks for a Report, which is created lazily and so does not yet
exist. -/
theorem c6_second_dispatch_same_state (fails : User → Bool)
    (todayOf : String → Nat) (z : String) (db : DB) (hwf : WF db) :
    (∀ uid, stateOf (send_pending_standups fails todayOf z
          (send_pending_standups fails todayOf z db).1).1 uid =
        stateOf (send_pending_standups fails todayOf z db).1 uid) ∧
    (send_pending_standups fails todayOf z
        (send_pending_standups fails todayOf z db).1).2 =
      (send_pending_standups fails todayOf z db).2 := by
  have husers := send_users fails todayOf z db
  have hreports := send_reports fails todayOf z db
  constructor
  · intro uid
    by_cases hex : ∃ v ∈ list_active db, v.id = uid
    · obtain ⟨v, hv, hveq⟩ := hex
      subst hveq
      have hv2 : v ∈ list_active (send_pending_standups fails todayOf z db).1 := by
        rw [list_active_congr husers]
        exact hv
      have hnid2 : ((send_pending_standups fails todayOf z db).1.users.map
          (fun u => u.id)).Nodup := by
        rw [husers]
        exact hwf.1
      have E2 := send_effect_mem fails todayOf z
        (send_pending_standups fails todayOf z db).1 hnid2 v hv2
      rw [dispatch_decision_congr todayOf z v hreports] at E2
      have E1 := send_effect_mem fails todayOf z db hwf.1 v hv
      rw [E2, E1]
      cases hdec : dispatch_decision todayOf z db v with
      | none => rfl
      | some dm =>
        obtain ⟨d, m⟩ := dm
        by_cases hf : fails v
        · simp [hf, E1, hdec]
        · simp [hf, E1, hdec]
    · push_neg at hex
      have hex2 : ∀ v ∈ list_active
          (send_pending_standups fails todayOf z db).1, v.id ≠ uid := by
        rw [list_active_congr husers]
        exact hex
      exact send_stateOf_nonmem fails todayOf z _ uid hex2
  · exact send_msgs_congr fails todayOf z _ db husers hreports

/-- C6 witness: the amended theorem applied to a concrete database. -/
theorem c6_witness :
    WF dbC6 ∧
    (stateOf (send_pending_standups (fun _ => false) (fun _ => 10) "tz"
          (send_pending_standups (fun _ => false) (fun _ => 10) "tz"
            dbC6).1).1 1 =
        stateOf (send_pending_standups (fun _ => false) (fun _ => 10) "tz"
          dbC6).1 1 ∧
      (send_pending_standups (fun _ => false) (fun _ => 10) "tz"
          (send_pending_standups (fun _ => false) (fun _ => 10) "tz"
            dbC6).1).2 =
        (send_pending_standups (fun _ => false) (fun _ => 10) "tz" dbC6).2) :=
  ⟨by decide,
    by
      have h := c6_second_dispatch_same_state (fun _ => false) (fun _ => 10)
        "tz" dbC6 (by decide)
      exact ⟨h.1 1, h.2⟩⟩

/-- Reduction of `handle_skip_today` once the user and state are resolved. -/
theorem handle_skip_run (flag : Bool) (db : DB) (sid : String)
    (u : User) (st : StandupState)
    (h1 : get_by_slack_id db sid = some u)
    (h2 : state_get_by_user db u.id = some st) :
    handle_skip_today flag db sid =
      (let db1 :=
        match get_by_user_date db u.id st.pending_report_date with
        | some r => report_update_skipped db r.id
        | none => (report_create db u.id st.pending_report_date true).1
      let db2 := state_delete db1 u.id
      if flag then (db2, .skipped, [Msg.skipPost u.display_name sid])
      else (db2, .skipped, [])) := by
  unfold handle_skip_today
  rw [h1]
  dsimp only
  rw [h2]

/-- C7: for a user with a PendingState, `handle_skip_today` marks the
report for the pending date skipped — updating it in place when it exists
(leaving every already-written answer field intact), or creating a fresh
report with `skipped = true` and empty answer fields — deletes the
PendingState, and returns the skipped result. -/
theorem c7_skip_preserves_answers (flag : Bool) (db : DB) (sid : String)
    (u : User) (st : StandupState)
    (h1 : get_by_slack_id db sid = some u)
    (h2 : state_get_by_user db u.id = some st) :
    (handle_skip_today flag db sid).2.1 = .skipped ∧
    stateOf (handle_skip_today flag db sid).1 u.id = none ∧
    (∀ r, get_by_user_date db u.id st.pending_report_date = some r →
      get_by_user_date (handle_skip_today flag db sid).1 u.id
          st.pending_report_date = some { r with skipped := true }) ∧
    (get_by_user_date db u.id st.pending_report_date = none →
      get_by_user_date (handle_skip_today flag db sid).1 u.id
          st.pending_report_date =
        some { id := db.next_report_id, user_id := u.id,
               report_date := st.pending_report_date, skipped := true }) := by
  have HE := handle_skip_run flag db sid u st h1 h2
  dsimp only at HE
  have hfst : (handle_skip_today flag db sid).1 =
      state_delete
        (match get_by_user_date db u.id st.pending_report_date with
          | some r => report_update_skipped db r.id
          | none => (report_create db u.id st.pending_report_date true).1)
        u.id := by
    rw [HE]
    cases flag <;> rfl
  have hsnd : (handle_skip_today flag db sid).2.1 = .skipped := by
    rw [HE]
    cases flag <;> rfl
  refine ⟨hsnd, ?_, ?_, ?_⟩
  · rw [hfst]
    exact stateOf_delete_self _ _
  · intro r hr
    rw [hfst, hr]
    dsimp only
    rw [get_by_user_date_state_delete, get_by_user_date_update_skipped, hr]
    simp
  · intro hr
    rw [hfst, hr]
    dsimp only
    rw [get_by_user_date_state_delete,
        get_by_user_date_create_self db u.id st.pending_report_date true hr]
    rfl

/-- Witness database for C7: user answered question 0 (feeling "Good"),
then skips; the report keeps the answered field and gains the flag. -/
def dbW7 : DB :=
  ⟨[exUser], [⟨1, 1, 10, some "Good", none, none, none, false, none⟩],
    [⟨1, 10, 1⟩], 2⟩

/-- C7 witness: the theorem applied to a concrete database. -/
theorem c7_witness :
    (get_by_slack_id dbW7 "U1" = some exUser ∧
      state_get_by_user dbW7 exUser.id = some ⟨1, 10, 1⟩ ∧
      get_by_user_date dbW7 exUser.id 10 =
        some ⟨1, 1, 10, some "Good", none, none, none, false, none⟩) ∧
    ((handle_skip_today false dbW7 "U1").2.1 = .skipped ∧
      stateOf (handle_skip_today false dbW7 "U1").1 exUser.id = none ∧
      get_by_user_date (handle_skip_today false dbW7 "U1").1 exUser.id 10 =
        some ⟨1, 1, 10, some "Good", none, none, none, true, none⟩) :=
  ⟨⟨by decide, by decide, by decide⟩,
    by
      have h := c7_skip_preserves_answers false dbW7 "U1" exUser ⟨1, 10, 1⟩
        (by decide) (by decide)
      exact ⟨h.1, h.2.1,
        h.2.2.1 ⟨1, 1, 10, some "Good", none, none, none, false, none⟩
          (by decide)⟩⟩

/-! Lemmas for the immutability analysis (C4). -/

theorem get_report_by_id_state_set_index (db : DB) (x : Nat) (i : Int)
    (rid : Nat) :
    get_report_by_id (state_set_index db x i) rid = get_report_by_id db rid :=
  rfl

/-- `post_report_to_channel` never modifies the database. -/
theorem post_db_unchanged (b : Bool) (db : DB) (rid : Nat) :
    (post_report_to_channel b db rid).1 = db := by
  unfold post_report_to_channel
  cases get_report_by_id db rid with
  | none => rfl
  | some rep =>
    dsimp only
    cases get_user_by_id db rep.user_id with
    | none => rfl
    | some uu =>
      dsimp only
      by_cases hb : b <;> simp [hb]

/-- Reductions of `handle_skip_today` on its error paths. -/
theorem handle_skip_no_user (flag : Bool) (db : DB) (sid : String)
    (h : get_by_slack_id db sid = none) :
    handle_skip_today flag db sid = (db, .errorMsg "User not found", []) := by
  unfold handle_skip_today
  rw [h]

theorem handle_skip_no_state (flag : Bool) (db : DB) (sid : String) (u : User)
    (h1 : get_by_slack_id db sid = some u)
    (h2 : state_get_by_user db u.id = none) :
    handle_skip_today flag db sid = (db, .errorMsg "No pending standup", []) := by
  unfold handle_skip_today
  rw [h1]
  dsimp only
  rw [h2]

/-- C4 counterexample database: user 1's report for day 8 is completed
(`completed_at = 99`) with `feeling = "old"`; today resolves to day 10. -/
def dbC4 : DB :=
  ⟨[exUser], [⟨1, 1, 8, some "old", none, none, none, false, some 99⟩], [], 2⟩

/-- C4 counterexample: after a catch-up dispatch (which points the
PendingState at the completed report's own date, day 8), one
`handle_user_answer` call overwrites the completed report's `feeling`
field — so a completed report is not immutable under the public
operations. -/
theorem c4_counterexample :
    (get_report_by_id dbC4 1).map (fun r => r.completed_at) =
      some (some 99) ∧
    (get_report_by_id dbC4 1).map (fun r => r.feeling) = some (some "old") ∧
    stateOf (send_pending_standups (fun _ => false) (fun _ => 10) "tz"
        dbC4).1 1 = some ⟨1, 8, 0⟩ ∧
    (get_report_by_id
        (handle_user_answer 100
          (send_pending_standups (fun _ => false) (fun _ => 10) "tz"
            dbC4).1 "U1" "new").1 1).map (fun r => r.feeling) =
      some (some "new") := by
  decide

/-- C4 (amended): a Report whose `completed_at` is set or whose `skipped`
flag is `true` keeps its `feeling/yesterday/today/blockers` fields under
`send_pending_standups`, `handle_skip_today` and `post_report_to_channel`;
`handle_user_answer` also keeps them, provided the addressed user's
PendingState does not point at that report's (user, date) key — when it
does (as a catch-up dispatch arranges), the current answer overwrites the
slot of the current question even on a completed or skipped report. -/
theorem c4_amended_immutability (db : DB) (r : StandupReport)
    (hwf : WF db) (hr : r ∈ db.reports)
    (hterm : r.completed_at ≠ none ∨ r.skipped = true)
    (fails : User → Bool) (todayOf : String → Nat) (z : String)
    (flag : Bool) (sid sid2 : String) (b : Bool) (rid : Nat)
    (now : Nat) (ans : String)
    (hmis : match get_by_slack_id db sid2 with
      | none => True
      | some u =>
        match state_get_by_user db u.id with
        | none => True
        | some st =>
          ¬(u.id = r.user_id ∧ st.pending_report_date = r.report_date)) :
    (get_report_by_id (send_pending_standups fails todayOf z db).1 r.id).map
        answer_fields = some (answer_fields r) ∧
    (get_report_by_id (handle_skip_today flag db sid).1 r.id).map
        answer_fields = some (answer_fields r) ∧
    (post_report_to_channel b db rid).1 = db ∧
    (get_report_by_id (handle_user_answer now db sid2 ans).1 r.id).map
        answer_fields = some (answer_fields r) := by
  have hself : get_report_by_id db r.id = some r :=
    get_report_by_id_self db hwf r hr
  refine ⟨?_, ?_, post_db_unchanged b db rid, ?_⟩
  · rw [get_report_by_id_congr (send_reports fails todayOf z db) r.id, hself]
    rfl
  · cases hu : get_by_slack_id db sid with
    | none =>
      rw [handle_skip_no_user flag db sid hu]
      rw [show ((db, SkipAction.errorMsg "User not found",
        ([] : List Msg))).1 = db from rfl, hself]
      rfl
    | some u =>
      cases hstt : state_get_by_user db u.id with
      | none =>
        rw [handle_skip_no_state flag db sid u hu hstt]
        rw [show ((db, SkipAction.errorMsg "No pending standup",
          ([] : List Msg))).1 = db from rfl, hself]
        rfl
      | some st =>
        have HE := handle_skip_run flag db sid u st hu hstt
        dsimp only at HE
        have hfst : (handle_skip_today flag db sid).1 =
            state_delete
              (match get_by_user_date db u.id st.pending_report_date with
                | some r0 => report_update_skipped db r0.id
                | none =>
                  (report_create db u.id st.pending_report_date true).1)
              u.id := by
          rw [HE]
          cases flag <;> rfl
        rw [hfst, get_report_by_id_state_delete]
        cases hrep : get_by_user_date db u.id st.pending_report_date with
        | some r0 =>
          dsimp only
          rw [get_report_by_id_update_skipped, hself]
          simp [answer_fields, apply_ite]
        | none =>
          dsimp only
          rw [get_report_by_id_create_old db u.id st.pending_report_date
            true r.id r hself]
          rfl
  · cases hu2 : get_by_slack_id db sid2 with
    | none =>
      rw [handle_user_answer_no_user now db sid2 ans hu2]
      rw [show ((db, AnswerAction.errorMsg "User not found in database")).1 =
        db from rfl, hself]
      rfl
    | some u =>
      rw [hu2] at hmis
      dsimp only at hmis
      cases hst2 : state_get_by_user db u.id with
      | none =>
        rw [handle_user_answer_no_state now db sid2 ans u hu2 hst2]
        rw [show ((db, AnswerAction.errorMsg "No pending standup. Start with /standup or wait for scheduled time.")).1 =
          db from rfl, hself]
        rfl
      | some st =>
        rw [hst2] at hmis
        dsimp only at hmis
        by_cases hg : (QUESTIONS.length : Int) ≤ st.current_question_index
        · rw [handle_user_answer_invalid now db sid2 ans u st hu2 hst2 hg]
          rw [show ((db, AnswerAction.errorMsg "Invalid state")).1 = db from
            rfl, hself]
          rfl
        · cases hq : pyIndex QUESTIONS st.current_question_index with
          | none =>
            rw [handle_user_answer_raised now db sid2 ans u st hu2 hst2 hg hq]
            rw [show ((db, AnswerAction.raised)).1 = db from rfl, hself]
            rfl
          | some q =>
            have HE := handle_user_answer_run now db sid2 ans u st q hu2
              hst2 hg hq
            dsimp only at HE
            rw [created_fst, created_snd] at HE
            have hne : (get_or_blank db u.id st.pending_report_date).id ≠
                r.id := by
              cases hrep : get_by_user_date db u.id st.pending_report_date with
              | some r0 =>
                unfold get_or_blank
                rw [hrep]
                have hrep' : db.reports.find?
                    (fun x => x.user_id == u.id &&
                      x.report_date == st.pending_report_date) = some r0 := hrep
                have hr0mem := List.mem_of_find?_eq_some hrep'
                have hp := List.find?_some hrep'
                simp only [Bool.and_eq_true, beq_iff_eq] at hp
                intro hid
                have heqr : r0 = r :=
                  List.inj_on_of_nodup_map hwf.2.2.2.1 hr0mem hr hid
                subst heqr
                exact hmis ⟨hp.1.symm, hp.2.symm⟩
              | none =>
                unfold get_or_blank
                rw [hrep]
                dsimp only
                have := hwf.2.2.2.2.2 r hr
                omega
            have hbe : (r.id == (get_or_blank db u.id
                st.pending_report_date).id) = false :=
              beq_false_of_ne (Ne.symm hne)
            have hM : get_report_by_id
                (match get_by_user_date db u.id st.pending_report_date with
                  | some _ => db
                  | none =>
                    (report_create db u.id st.pending_report_date false).1)
                r.id = some r := by
              cases hrep : get_by_user_date db u.id st.pending_report_date with
              | some r0 =>
                dsimp only
                exact hself
              | none =>
                dsimp only
                exact get_report_by_id_create_old db u.id
                  st.pending_report_date false r.id r hself
            by_cases hif : (QUESTIONS.length : Int) ≤
                st.current_question_index + 1
            · rw [if_pos hif] at HE
              rw [HE]
              dsimp only
              rw [get_report_by_id_state_delete,
                  get_report_by_id_mark_completed,
                  get_report_by_id_set_field, hM]
              simp [answer_fields, hbe, Ne.symm hne]
            · rw [if_neg hif] at HE
              rw [HE]
              dsimp only
              rw [get_report_by_id_state_set_index,
                  get_report_by_id_set_field, hM]
              simp [answer_fields, hbe, Ne.symm hne]

/-- Witness database for C4: a completed report for day 8 and a
PendingState pointing at a different date (day 9). -/
def dbW4 : DB :=
  ⟨[exUser], [⟨1, 1, 8, some "old", none, none, none, false, some 99⟩],
    [⟨1, 9, 0⟩], 2⟩

/-- C4 witness: the amended theorem applied to a concrete database. -/
theorem c4_witness :
    (WF dbW4 ∧
      ⟨1, 1, 8, some "old", none, none, none, false, some 99⟩ ∈
        dbW4.reports ∧
      (some 99 ≠ (none : Option Nat) ∨ false = true)) ∧
    ((get_report_by_id (send_pending_standups (fun _ => false) (fun _ => 10)
          "tz" dbW4).1 1).map answer_fields =
        some (answer_fields
          ⟨1, 1, 8, some "old", none, none, none, false, some 99⟩) ∧
      (get_report_by_id (handle_skip_today false dbW4 "U1").1 1).map
          answer_fields =
        some (answer_fields
          ⟨1, 1, 8, some "old", none, none, none, false, some 99⟩) ∧
      (post_report_to_channel false dbW4 1).1 = dbW4 ∧
      (get_report_by_id (handle_user_answer 100 dbW4 "U1" "x").1 1).map
          answer_fields =
        some (answer_fields
          ⟨1, 1, 8, some "old", none, none, none, false, some 99⟩)) :=
  ⟨⟨by decide, by decide, by decide⟩,
    c4_amended_immutability dbW4
      ⟨1, 1, 8, some "old", none, none, none, false, some 99⟩
      (by decide) (by decide) (by decide)
      (fun _ => false) (fun _ => 10) "tz" false "U1" "U1" false 1 100 "x"
      (show ¬((1 : Nat) = 1 ∧ (9 : Nat) = 8) by decide)⟩

end Standup
